import Mathlib

/-!
Verification development for the Chrome Problem Solver extension
(background service worker `background.js` and content script `content.js`).

The JavaScript functions relevant to the design specification are shallowly
embedded as executable Lean definitions: strings are Lean `String`s, regular
expressions are translated to decidable scanners over `List Char`, JS numbers
holding millisecond latencies and averages become `ℚ`, and the two stateful
parts (the usage tracker and the SSE streaming read loop) become explicit
state-passing functions.
-/

namespace ProblemSolver

/- ## JS text primitives -/

/-- The character class matched by the JS regex `\s` and trimmed by
`String.prototype.trim` (ECMAScript WhiteSpace ∪ LineTerminator). -/
def isJsWhitespace (c : Char) : Bool :=
  c = ' ' || c = '\t' || c = '\n' || c.val = 11 || c.val = 12 || c = '\r' ||
  c.val = 0xA0 || c.val = 0x1680 || (0x2000 ≤ c.val && c.val ≤ 0x200A) ||
  c.val = 0x2028 || c.val = 0x2029 || c.val = 0x202F || c.val = 0x205F ||
  c.val = 0x3000 || c.val = 0xFEFF

/-- The character class matched by the JS regex `\w`: `[A-Za-z0-9_]`. -/
def isWordChar (c : Char) : Bool :=
  ('a' ≤ c && c ≤ 'z') || ('A' ≤ c && c ≤ 'Z') || c.isDigit || c = '_'

/-- `String.prototype.trim` on a character list. -/
def jsTrimList (l : List Char) : List Char :=
  ((l.dropWhile isJsWhitespace).reverse.dropWhile isJsWhitespace).reverse

/-- `String.prototype.trim`. -/
def jsTrimString (s : String) : String := ⟨jsTrimList s.data⟩

/-- Worker for JS `str.split(/\s+/)`: `acc` holds the current piece
reversed, `prevWs` records whether the previous character belonged to a
whitespace run (so a run of whitespace yields a single cut). -/
def jsSplitWsGo : List Char → List Char → Bool → List (List Char)
  | [], acc, _ => [acc.reverse]
  | c :: cs, acc, prevWs =>
    if isJsWhitespace c then
      if prevWs then jsSplitWsGo cs acc true
      else acc.reverse :: jsSplitWsGo cs [] true
    else jsSplitWsGo cs (c :: acc) false

/-- JS `str.split(/\s+/)` on a character list: pieces between maximal
whitespace runs, keeping a leading/trailing empty piece when the string
starts/ends with whitespace, and `[""]` for the empty string. -/
def jsSplitWs (l : List Char) : List (List Char) := jsSplitWsGo l [] false

/-- JS `str.split(/\s+/)` on a string. -/
def jsSplit (s : String) : List String := (jsSplitWs s.data).map (⟨·⟩)

/-- Try to consume the literal `needle` from the head of `hay`; return the
remainder on success. -/
def dropLit : List Char → List Char → Option (List Char)
  | [], l => some l
  | _ :: _, [] => none
  | a :: as, c :: cs => if c = a then dropLit as cs else none

/-- Case-insensitive variant of `dropLit` (the needle is given lowercase;
hay characters are ASCII-lowercased before comparison, matching the JS `i`
flag on ASCII patterns). -/
def dropLitCI : List Char → List Char → Option (List Char)
  | [], l => some l
  | _ :: _, [] => none
  | a :: as, c :: cs => if c.toLower = a then dropLitCI as cs else none

/-- Does `needle` occur as a substring of `hay` (case-sensitive)? -/
def containsLit (needle : List Char) : List Char → Bool
  | [] => (dropLit needle []).isSome
  | c :: cs => (dropLit needle (c :: cs)).isSome || containsLit needle cs

/-- Does `needle` (given lowercase) occur as a substring of `hay`,
case-insensitively? -/
def containsLitCI (needle : List Char) : List Char → Bool
  | [] => (dropLitCI needle []).isSome
  | c :: cs => (dropLitCI needle (c :: cs)).isSome || containsLitCI needle cs

/-- Does `hay` start with `needle` (needle lowercase, match
case-insensitive)? Models an `^`-anchored `/i` alternative. -/
def startsLitCI (needle hay : List Char) : Bool := (dropLitCI needle hay).isSome

/- ## Content classifier (`analyzeContentType`, background.js) -/

/-- Match at the head of `l` of the JS regex fragment
`\d+\s*[+\-*/]\s*\d+` (a digit run, optional whitespace, one arithmetic
operator, optional whitespace, a digit). Greedy scanning is equivalent to
the backtracking regex here because a digit is neither whitespace nor an
operator. -/
def numOpNumAt : List Char → Bool
  | [] => false
  | c :: rest =>
    c.isDigit &&
      (match (rest.dropWhile Char.isDigit).dropWhile isJsWhitespace with
       | op :: r3 =>
         (op = '+' || op = '-' || op = '*' || op = '/') &&
           (match r3.dropWhile isJsWhitespace with
            | d :: _ => d.isDigit
            | [] => false)
       | [] => false)

/-- The regex `/\d+\s*[+\-*\/]\s*\d+/` tested anywhere in the text. -/
def containsNumOpNum : List Char → Bool
  | [] => false
  | c :: cs => numOpNumAt (c :: cs) || containsNumOpNum cs

/-- Match at the head of `l` of `x\s*[=+\-*/]` or `y\s*[=+\-*/]`
(lowercase only: the source regex has no `i` flag). -/
def xyOpAt : List Char → Bool
  | [] => false
  | c :: rest =>
    (c = 'x' || c = 'y') &&
      (match rest.dropWhile isJsWhitespace with
       | op :: _ => op = '=' || op = '+' || op = '-' || op = '*' || op = '/'
       | [] => false)

/-- The regex `/x\s*[=+\-*\/]|y\s*[=+\-*\/]/` tested anywhere in the text. -/
def containsXyOp : List Char → Bool
  | [] => false
  | c :: cs => xyOpAt (c :: cs) || containsXyOp cs

/-- One character of the class `[\d+\-*/().\s=<>≤≥]`. -/
def mathClassChar (c : Char) : Bool :=
  c.isDigit || c = '+' || c = '-' || c = '*' || c = '/' || c = '(' ||
  c = ')' || c = '.' || isJsWhitespace c || c = '=' || c = '<' || c = '>' ||
  c = '≤' || c = '≥'

/-- The anchored regex `/^[\d+\-*\/().\s=<>≤≥]+$/`: a nonempty text made
only of digits, arithmetic operators, parentheses, dots, whitespace and
comparison symbols. -/
def onlyMathChars (l : List Char) : Bool := !l.isEmpty && l.all mathClassChar

/-- The math-verb keywords of `/solve|calculate|evaluate|compute|find|derivative|integral|limit/i`. -/
def mathKeywords : List String :=
  ["solve", "calculate", "evaluate", "compute", "find", "derivative", "integral", "limit"]

/-- Case-insensitive substring test for any word of a list. -/
def containsAnyCI (ws : List String) (l : List Char) : Bool :=
  ws.any (fun w => containsLitCI w.data l)

/-- `^`-anchored case-insensitive alternative test for any word of a list. -/
def startsWithAnyCI (ws : List String) (l : List Char) : Bool :=
  ws.any (fun w => startsLitCI w.data l)

/-- Match at the head of `l` of `kw` followed by `\s+\w+` (used by the code
keyword regex, e.g. `function\s+\w+`). -/
def kwThenWordAt (kw : List Char) (l : List Char) : Bool :=
  match dropLit kw l with
  | some (c :: rest) =>
    isJsWhitespace c &&
      (match rest.dropWhile isJsWhitespace with
       | d :: _ => isWordChar d
       | [] => false)
  | _ => false

/-- Match at the head of `l` of `kw` followed by `\s+` (the `import\s+`
alternative). -/
def kwThenWsAt (kw : List Char) (l : List Char) : Bool :=
  match dropLit kw l with
  | some (c :: _) => isJsWhitespace c
  | _ => false

/-- One position of the regex
`/function\s+\w+|def\s+\w+|class\s+\w+|import\s+|const\s+\w+|let\s+\w+|var\s+\w+/`. -/
def codeKeywordAt (l : List Char) : Bool :=
  kwThenWordAt "function".data l || kwThenWordAt "def".data l ||
  kwThenWordAt "class".data l || kwThenWsAt "import".data l ||
  kwThenWordAt "const".data l || kwThenWordAt "let".data l ||
  kwThenWordAt "var".data l

/-- The code keyword regex tested anywhere in the text. -/
def containsCodeKeyword : List Char → Bool
  | [] => false
  | c :: cs => codeKeywordAt (c :: cs) || containsCodeKeyword cs

/-- The regex `/[{}();]|=>|->|::/`: structural punctuation characteristic
of code. -/
def containsCodeSymbol (l : List Char) : Bool :=
  l.any (fun c => c = '\x7b' || c = '\x7d' || c = '(' || c = ')' || c = ';') ||
  containsLit "=>".data l || containsLit "->".data l || containsLit "::".data l

/-- Interrogative and auxiliary starters of the question regex. -/
def questionWords : List String :=
  ["what", "how", "why", "when", "where", "who", "which", "can", "could",
   "should", "would", "is", "are", "do", "does", "did"]

/-- Imperative verbs of `/^(answer|calculate|evaluate|graph|select|solve|find)/i`. -/
def commandWords : List String :=
  ["answer", "calculate", "evaluate", "graph", "select", "solve", "find"]

/-- `trimmed.endsWith('?')`. -/
def endsWithQm (l : List Char) : Bool :=
  match l.getLast? with
  | some c => c = '?'
  | none => false

/-- One position of the word-bounded case-insensitive match `\bblank\b`
(and in general `\bw\b`): the previous character, tracked by the caller,
must not be a word character, and neither may the character following the
occurrence. -/
def wordBoundedAt (w : List Char) (prevIsWord : Bool) (l : List Char) : Bool :=
  !prevIsWord &&
    (match dropLitCI w l with
     | some [] => true
     | some (c :: _) => !isWordChar c
     | none => false)

/-- Scan for a word-bounded case-insensitive occurrence of `w` (given
lowercase), threading whether the previous character was a word character. -/
def containsBoundedWordCI (w : List Char) (prevIsWord : Bool) : List Char → Bool
  | [] => false
  | c :: cs =>
    wordBoundedAt w prevIsWord (c :: cs) || containsBoundedWordCI w (isWordChar c) cs

/-- The classification result of `analyzeContentType`. -/
structure ContentTypeDescriptor where
  wordCount : Nat
  isMath : Bool
  isCode : Bool
  isQuestion : Bool
  isFillBlank : Bool
  isCommand : Bool
  isStatement : Bool
  isLongText : Bool
deriving DecidableEq

/-- `analyzeContentType` (background.js lines 167-209): the decision-tree
classifier. Each regex of the source is replaced by the equivalent
decidable scanner defined above. -/
def analyzeContentType (text : String) : ContentTypeDescriptor :=
  let chars := text.data
  let trimmed := jsTrimList chars
  let wordCount := (jsSplitWs trimmed).length
  let isMath := onlyMathChars chars || containsAnyCI mathKeywords chars ||
    containsNumOpNum chars || containsXyOp chars
  let isCode := containsCodeKeyword chars || containsCodeSymbol chars
  let isQuestion := endsWithQm trimmed || startsWithAnyCI questionWords trimmed
  let isFillBlank := chars.any (fun c => c = '_') || containsBoundedWordCI "blank".data false chars
  let isCommand := startsWithAnyCI commandWords trimmed
  let isStatement := !isQuestion && !isMath && !isCode && !isCommand && decide (wordCount ≤ 20)
  { wordCount := wordCount
    isMath := isMath
    isCode := isCode
    isQuestion := isQuestion
    isFillBlank := isFillBlank
    isCommand := isCommand
    isStatement := isStatement
    isLongText := decide (wordCount > 75) }

/-- The spec calls `analyzeContentType` the classifier `classify`. -/
def classify : String → ContentTypeDescriptor := analyzeContentType

/- ## Prompt builder (`buildPrompt`, `getTemperature`, background.js) -/

/-- The system/user prompt pair returned by `buildPrompt`. -/
structure PromptSpec where
  systemPrompt : String
  userPrompt : String
deriving DecidableEq

/-- The leading sentence shared by every system prompt. -/
def basePrompt : String :=
  "You are a helpful AI assistant that provides accurate, concise answers. "

/-- `buildPrompt` (background.js lines 212-250): first-match branch over
the image flag and the descriptor flags, producing the system prompt and
the user prompt. -/
def buildPrompt (text : String) (ct : ContentTypeDescriptor) (isImage : Bool) : PromptSpec :=
  if isImage then
    { systemPrompt :=
        basePrompt ++ "Analyze the image and provide a detailed description. " ++
          (if ct.isMath || ct.isCode then
            "If the image contains math or code, solve or explain it step-by-step. "
          else "")
      userPrompt := "" }
  else if ct.isMath then
    { systemPrompt := basePrompt ++ "You are solving a mathematical problem. Restate the problem clearly, solve it step-by-step showing all work, and provide a Final Answer at the end. "
      userPrompt := "Solve this math problem step-by-step:\n\n" ++ text }
  else if ct.isCode then
    { systemPrompt := basePrompt ++ "Identify the programming language, summarize the functionality, and offer clarification or improvements. Do NOT include a Final Answer field. "
      userPrompt := "Analyze this code:\n\n" ++ text }
  else if ct.isFillBlank then
    { systemPrompt := basePrompt ++ "Provide the most likely answer for this fill-in-the-blank question. Include a Final Answer field. "
      userPrompt := "Fill in the blank:\n\n" ++ text }
  else if ct.isQuestion then
    { systemPrompt := basePrompt ++ "Provide a brief, accurate answer to this question. Include a Final Answer field. "
      userPrompt := "Answer this question:\n\n" ++ text }
  else if ct.isCommand then
    { systemPrompt := basePrompt ++ "Execute this command and return the result. Include a Final Answer field. For graphs, use ASCII art. "
      userPrompt := "Execute:\n\n" ++ text }
  else if ct.isLongText then
    { systemPrompt := basePrompt ++ "Summarize the key points of this text, then ask how the user would like to proceed with helpful suggestions. Do NOT include a Final Answer field. "
      userPrompt := "Summarize this text:\n\n" ++ text }
  else if ct.isStatement then
    { systemPrompt := basePrompt ++ "Provide a brief summary (15 words or less) and ask how the user wants to proceed. Do NOT include a Final Answer field. "
      userPrompt := "Summarize:\n\n" ++ text }
  else
    { systemPrompt := basePrompt ++ "Provide helpful analysis and insights. "
      userPrompt := text }

/-- `getTemperature` (background.js lines 253-255): 0.0 for math, 0.2
otherwise. -/
def getTemperature (ct : ContentTypeDescriptor) : ℚ :=
  if ct.isMath then 0 else 2 / 10

/- ## Confidence estimator (`calculateConfidence`, background.js) -/

/-- One position of `answer:\s*\d+` case-insensitively. -/
def answerNumAt (l : List Char) : Bool :=
  match dropLitCI "answer:".data l with
  | some rest =>
    (match rest.dropWhile isJsWhitespace with
     | d :: _ => d.isDigit
     | [] => false)
  | none => false

/-- `answer:\s*\d+` tested anywhere in the text, case-insensitively. -/
def containsAnswerNum : List Char → Bool
  | [] => false
  | c :: cs => answerNumAt (c :: cs) || containsAnswerNum cs

/-- The regex `/final answer|answer:\s*\d+/i` of `calculateConfidence`. -/
def mathAnswerPattern (s : String) : Bool :=
  containsLitCI "final answer".data s.data || containsAnswerNum s.data

/-- `calculateConfidence` (background.js lines 826-846). The three rules
are sequential reassignments of the same variable, not an else-if
cascade: a later matching rule overwrites an earlier one. `response.length`
counts UTF-16 code units in JS and code points here; the texts reasoned
about below are ASCII, where the two agree. -/
def calculateConfidence (response : String) (ct : ContentTypeDescriptor) : Nat :=
  let confidence := 70
  let confidence := if ct.isMath = true ∧ mathAnswerPattern response = true then 90 else confidence
  let confidence := if ct.isCode = true ∧ response.length > 100 then 85 else confidence
  let confidence := if ct.isLongText = true ∧ response.length < 50 then 60 else confidence
  max 50 (min 95 confidence)

/- ## Usage tracker (`trackUsage`, background.js lines 858-909) -/

/-- One event passed to `trackUsage`. Optional fields model JS properties
that may be absent; truthiness checks of the source (`if (data.responseTime)`,
`if (data.provider)`, ...) are rendered as presence plus non-zero /
non-empty tests, because `0` and `""` are falsy in JS. -/
structure UsageEvent where
  success : Bool
  responseTime : Option ℚ
  provider : Option String
  model : Option String
  contentType : Option String
  errorMsg : Option String
deriving DecidableEq

/-- A history entry: `{ timestamp: Date.now(), ...data }`. The clock value
is an explicit input of the embedding. -/
structure HistEntry where
  timestamp : Nat
  data : UsageEvent
deriving DecidableEq

/-- The persisted `usage` aggregate. The three count maps are total
functions defaulting to 0, matching `(map[key] || 0)`. -/
structure Usage where
  totalRequests : Nat
  successfulRequests : Nat
  failedRequests : Nat
  totalResponseTime : ℚ
  averageResponseTime : ℚ
  byProvider : String → Nat
  byModel : String → Nat
  byContentType : String → Nat
  history : List HistEntry

/-- The default aggregate created when no `usage` record exists yet. -/
def initUsage : Usage :=
  { totalRequests := 0, successfulRequests := 0, failedRequests := 0
    totalResponseTime := 0, averageResponseTime := 0
    byProvider := fun _ => 0, byModel := fun _ => 0, byContentType := fun _ => 0
    history := [] }

/-- `(map[key] || 0) + 1`. -/
def bump (f : String → Nat) (k : String) : String → Nat :=
  fun s => if s = k then f s + 1 else f s

/-- The request/latency counter part of `trackUsage` (background.js lines
872-881): bump the total counter, then on success bump the success counter
and, when a truthy latency is present, accumulate it and recompute the
average over the just-incremented success count; on failure bump the
failure counter. -/
def trackTotals (u : Usage) (e : UsageEvent) : Usage :=
  let u := { u with totalRequests := u.totalRequests + 1 }
  if e.success then
    let u := { u with successfulRequests := u.successfulRequests + 1 }
    match e.responseTime with
    | some t =>
      if t ≠ 0 then
        { u with totalResponseTime := u.totalResponseTime + t
                 averageResponseTime := (u.totalResponseTime + t) / (u.successfulRequests : ℚ) }
      else u
    | none => u
  else { u with failedRequests := u.failedRequests + 1 }

/-- The per-provider / per-model / per-content-type count maps of
`trackUsage` (background.js lines 883-896). -/
def trackMaps (u : Usage) (e : UsageEvent) : Usage :=
  let u :=
    match e.provider with
    | some p => if p ≠ "" then { u with byProvider := bump u.byProvider p } else u
    | none => u
  let u :=
    match e.model with
    | some m => if m ≠ "" then { u with byModel := bump u.byModel m } else u
    | none => u
  match e.contentType with
  | some c => if c ≠ "" then { u with byContentType := bump u.byContentType c } else u
  | none => u

/-- The counter part of `trackUsage` (background.js lines 872-896): the
straight-line sequence of counter updates followed by the count-map
updates. The history push follows in `trackUsage`. -/
def trackCounters (u : Usage) (e : UsageEvent) : Usage :=
  trackMaps (trackTotals u e) e

/-- `trackUsage` (background.js lines 858-909) as a pure state transition:
update the counters, push the history entry, and drop the oldest entry when
the log exceeds 100 (`history.shift()`). -/
def trackUsage (now : Nat) (u : Usage) (e : UsageEvent) : Usage :=
  let u2 := trackCounters u e
  if (u2.history ++ [HistEntry.mk now e]).length > 100 then
    { u2 with history := (u2.history ++ [HistEntry.mk now e]).tail }
  else
    { u2 with history := u2.history ++ [HistEntry.mk now e] }

/-- A sequence of timestamped events recorded against the fresh store. -/
def recordEvents (es : List (Nat × UsageEvent)) : Usage :=
  es.foldl (fun u p => trackUsage p.1 u p.2) initUsage

/- ## Streaming read loop (`callOpenAIStream` / `callClaudeStream`) -/

/-- A message relayed to the content script during streaming: a
`streamChunk` text fragment or the `streamComplete` terminal signal
carrying the assembled `fullResponse`. -/
inductive StreamEvent where
  | chunk (s : String)
  | complete (full : String)
deriving DecidableEq

/-- The loop state of the streaming read loop: the partial-line `buffer`,
the accumulated `fullResponse`, the messages sent so far, and whether the
loop returned early on a terminal frame. -/
structure StreamState where
  buffer : List Char
  fullResponse : String
  events : List StreamEvent
  halted : Bool
deriving DecidableEq

/-- `buffer = ''; fullResponse = '';` before the first read. -/
def initStream : StreamState := { buffer := [], fullResponse := "", events := [], halted := false }

/-- JS `str.split('\n')` on a character list. -/
def splitNl : List Char → List (List Char)
  | [] => [[]]
  | c :: cs =>
    if c = '\n' then [] :: splitNl cs
    else
      match splitNl cs with
      | h :: t => (c :: h) :: t
      | [] => [[c]]

/-- One line of the OpenAI SSE loop (background.js lines 433-459).
`line.startsWith('data: ')` and `line.slice(6)` combine into `dropLit`.
`parseDelta` stands for `JSON.parse(data)` followed by
`json.choices[0]?.delta?.content || ''`: `none` models a `JSON.parse`
throw (the frame is skipped), `some d` the extracted delta, where `d = ""`
covers an absent or empty content field (falsy, so skipped). -/
def oaProcessLine (parseDelta : String → Option String) (st : StreamState) (line : List Char) : StreamState :=
  if st.halted then st
  else
    match dropLit "data: ".data line with
    | some data =>
      if data = "[DONE]".data then
        { st with events := st.events ++ [StreamEvent.complete st.fullResponse], halted := true }
      else
        match parseDelta (String.mk data) with
        | some delta =>
          if delta ≠ "" then
            { st with fullResponse := st.fullResponse ++ delta
                      events := st.events ++ [StreamEvent.chunk delta] }
          else st
        | none => st
    | none => st

/-- A parsed Claude SSE frame: `json.type` and, for
`content_block_delta`, the optional `json.delta?.text`. -/
inductive ClaudeFrame where
  | contentBlockDelta (text : Option String)
  | messageStop
  | otherFrame
deriving DecidableEq

/-- One line of the Claude SSE loop (background.js lines 674-705).
`parseFrame` stands for `JSON.parse(data)` plus the `json.type` dispatch;
`none` models a `JSON.parse` throw. A `content_block_delta` frame whose
`delta.text` is absent or empty is falsy and does nothing. -/
def claudeProcessLine (parseFrame : String → Option ClaudeFrame) (st : StreamState) (line : List Char) : StreamState :=
  if st.halted then st
  else
    match dropLit "data: ".data line with
    | some data =>
      if data = "[DONE]".data then
        { st with events := st.events ++ [StreamEvent.complete st.fullResponse], halted := true }
      else
        match parseFrame (String.mk data) with
        | some (ClaudeFrame.contentBlockDelta (some t)) =>
          if t ≠ "" then
            { st with fullResponse := st.fullResponse ++ t
                      events := st.events ++ [StreamEvent.chunk t] }
          else st
        | some ClaudeFrame.messageStop =>
          { st with events := st.events ++ [StreamEvent.complete st.fullResponse], halted := true }
        | _ => st
    | none => st

/-- One `reader.read()` iteration: append the decoded text to the buffer,
split on newlines, keep the trailing partial line (`lines.pop() || ''`) as
the new buffer, and process the complete lines in order. An early return
in the source ends the invocation; it is modelled by the `halted` flag,
which freezes the state. -/
def processRead (procLine : StreamState → List Char → StreamState) (st : StreamState) (input : String) : StreamState :=
  if st.halted then st
  else
    let lines := splitNl (st.buffer ++ input.data)
    lines.dropLast.foldl procLine { st with buffer := lines.getLastD [] }

/-- The whole read loop over a list of decoded reads. -/
def runStream (procLine : StreamState → List Char → StreamState) (reads : List String) : StreamState :=
  reads.foldl (processRead procLine) initStream

/-- `callOpenAIStream` (background.js lines 342-466), restricted to its
SSE consumption loop: the request construction preceding it does not
affect the emitted events. -/
def callOpenAIStream (parseDelta : String → Option String) (reads : List String) : StreamState :=
  runStream (oaProcessLine parseDelta) reads

/-- `callClaudeStream` (background.js lines 566-712), restricted to its
SSE consumption loop. -/
def callClaudeStream (parseFrame : String → Option ClaudeFrame) (reads : List String) : StreamState :=
  runStream (claudeProcessLine parseFrame) reads

/-- Concatenation of all `chunk` fragments in emission order. -/
def chunksConcat : List StreamEvent → String
  | [] => ""
  | StreamEvent.chunk s :: r => s ++ chunksConcat r
  | StreamEvent.complete _ :: r => chunksConcat r

/-- Is this event the terminal completion signal? -/
def isCompleteEv : StreamEvent → Bool
  | StreamEvent.complete _ => true
  | StreamEvent.chunk _ => false

/-- Number of terminal completion signals among the emitted events. -/
def completeCount (l : List StreamEvent) : Nat := (l.filter isCompleteEv).length

/- ## Provider HTTP error handling (`callOpenAI`/`callClaude` and their
streaming variants) -/

/-- What a failed provider call throws. `providerMsg` is
`new Error(error.error?.message || generic)`; `jsonSyntaxError` is the
rejection of `response.json()` itself on an unparseable body (a
SyntaxError, whose message is engine text, not the generic provider
message). -/
inductive ThrownError where
  | providerMsg (msg : String)
  | jsonSyntaxError
deriving DecidableEq

/-- `error.error?.message || generic`: the optional message field with JS
falsiness (`none` = absent, `""` = falsy empty string). -/
def messageOrGeneric (generic : String) (m : Option String) : String :=
  match m with
  | some msg => if msg = "" then generic else msg
  | none => generic

/-- The non-streaming status check (background.js lines 332-335 and
556-559): `const error = await response.json(); throw new Error(
error.error?.message || generic)`. There is no `.catch`, so an
unparseable body rejects with the JSON SyntaxError. `body` is
`none` when the response body is not valid JSON, otherwise the optional
`error.error?.message` field. Returns `none` when `response.ok`. -/
def checkResponse (generic : String) (ok : Bool) (body : Option (Option String)) : Option ThrownError :=
  if ok then none
  else
    match body with
    | none => some ThrownError.jsonSyntaxError
    | some m => some (ThrownError.providerMsg (messageOrGeneric generic m))

/-- The streaming status check (background.js lines 413-416 and 654-657):
`await response.json().catch(() => ({ error: { message: generic } }))`,
so an unparseable body is replaced by a parsed object carrying the generic
message before the throw. -/
def checkResponseStream (generic : String) (ok : Bool) (body : Option (Option String)) : Option ThrownError :=
  if ok then none
  else
    let parsed : Option String :=
      match body with
      | none => some generic
      | some m => m
    some (ThrownError.providerMsg (messageOrGeneric generic parsed))

/- ## Content-script follow-up path (`sendFollowUp`, content.js) -/

/-- One message of the conversation thread
(`{role, text, imageData, timestamp}`). -/
structure ThreadMsg where
  role : String
  text : String
  imageData : Option String
  timestamp : Nat
deriving DecidableEq

/-- `currentThread` (`{id, messages, timestamp}`). -/
structure Thread where
  id : Nat
  messages : List ThreadMsg
  timestamp : Nat
deriving DecidableEq

/-- `!currentThread || currentThread.messages.length === 0`. -/
def noActiveThread : Option Thread → Bool
  | none => true
  | some th => th.messages.length = 0

/-- The observable outcome of `sendFollowUp`: silently do nothing (empty
input), alert without dispatching, or dispatch the analysis request
`sendAnalysisRequest(text, null, true)`. -/
inductive FollowUpAction where
  | noAction
  | alertWordLimit
  | alertNoThread
  | dispatch (text : String)
deriving DecidableEq

/-- The follow-up word list: `text.split(/\s+/).filter(w => w.length > 0)`
applied to the trimmed input. -/
def followUpWords (text : String) : List String :=
  (jsSplit text).filter (fun w => w.length > 0)

/-- `sendFollowUp` (content.js lines 539-565): guard empty input, the
50-word limit, and the absent/empty thread, in source order, before
dispatching. -/
def sendFollowUp (inputValue : String) (currentThread : Option Thread) : FollowUpAction :=
  let text := jsTrimString inputValue
  if text = "" then FollowUpAction.noAction
  else if (followUpWords text).length > 50 then FollowUpAction.alertWordLimit
  else if noActiveThread currentThread then FollowUpAction.alertNoThread
  else FollowUpAction.dispatch text

/- ## Follow-up descriptor (`handleAnalysis` / `handleAnalysisStream`) -/

/-- The fixed content-type descriptor substituted for classification on
follow-up requests (background.js lines 722-723 and 778-779):
`{isMath: false, isCode: false, isQuestion: true, isFillBlank: false,
isCommand: false, isStatement: false, isLongText: false,
wordCount: (text || '').split(/\s+/).length}` (note: no trim). -/
def followUpContentType (text : String) : ContentTypeDescriptor :=
  { wordCount := (jsSplitWs text.data).length
    isMath := false, isCode := false, isQuestion := true, isFillBlank := false
    isCommand := false, isStatement := false, isLongText := false }

/- ## Specification-level predicates and concrete test data -/

/-- The invariant threaded through the streaming loop: fragments emitted
so far concatenate to the accumulated `fullResponse`, at most one
completion was emitted, a completion is only emitted at the halt, and any
completion carries the final assembled text. -/
def StreamInv (st : StreamState) : Prop :=
  chunksConcat st.events = st.fullResponse ∧
  completeCount st.events ≤ 1 ∧
  (st.halted = false → completeCount st.events = 0) ∧
  ∀ f, StreamEvent.complete f ∈ st.events → f = st.fullResponse

/-- Shape of a single line-processing step: it leaves a halted state
alone, and otherwise either does nothing, appends one chunk, or appends
the completion signal and halts. -/
def LineStep (procLine : StreamState → List Char → StreamState) : Prop :=
  ∀ st line,
    (st.halted = true → procLine st line = st) ∧
    (st.halted = false →
      procLine st line = st ∨
      (∃ d, procLine st line =
        { st with fullResponse := st.fullResponse ++ d
                  events := st.events ++ [StreamEvent.chunk d] }) ∨
      procLine st line =
        { st with events := st.events ++ [StreamEvent.complete st.fullResponse], halted := true })

/-- JS truthiness of `data.responseTime`: present and non-zero. -/
def rtTruthy (e : UsageEvent) : Bool :=
  match e.responseTime with
  | some t => decide (t ≠ 0)
  | none => false

/-- The stated aggregate invariant: the stored average equals the
accumulated latency divided by the success count (`ℚ` division, where a
zero success count yields 0, matching the all-zero fresh record). -/
def AvgInv (u : Usage) : Prop :=
  u.averageResponseTime = u.totalResponseTime / (u.successfulRequests : ℚ)

/-- A successful usage event carrying latency `t` and nothing else. -/
def successEvent (t : ℚ) : UsageEvent :=
  { success := true, responseTime := some t, provider := none, model := none
    contentType := none, errorMsg := none }

/-- A failed usage event carrying nothing else. -/
def failureEvent : UsageEvent :=
  { success := false, responseTime := none, provider := none, model := none
    contentType := none, errorMsg := none }

/-- 150 timestamped failure events, used to exercise the history ring. -/
def demoEvents : List (Nat × UsageEvent) :=
  (List.range 150).map (fun i => (i, failureEvent))

/-- A descriptor with both isMath and isCode set, as produced for text
that is simultaneously classified as math and code. -/
def ctMathCode : ContentTypeDescriptor :=
  { wordCount := 4, isMath := true, isCode := true, isQuestion := false
    isFillBlank := false, isCommand := false, isStatement := false, isLongText := false }

/-- An answer text that matches the final-answer pattern and is longer
than 100 characters. -/
def ansMathCode : String := "Final Answer: 4. " ++ String.mk (List.replicate 100 'x')

/- ## Streaming invariant lemmas -/

theorem chunksConcat_append (a b : List StreamEvent) :
    chunksConcat (a ++ b) = chunksConcat a ++ chunksConcat b := by
  induction a with
  | nil => simp [chunksConcat]
  | cons e r ih => cases e <;> simp [chunksConcat, ih, String.append_assoc]

theorem completeCount_append (a b : List StreamEvent) :
    completeCount (a ++ b) = completeCount a + completeCount b := by
  simp [completeCount, List.filter_append]

theorem completeCount_zero_not_mem {l : List StreamEvent} (h : completeCount l = 0)
    {f : String} (hm : StreamEvent.complete f ∈ l) : False := by
  have hmem : StreamEvent.complete f ∈ l.filter isCompleteEv :=
    List.mem_filter.mpr ⟨hm, rfl⟩
  have hnil : l.filter isCompleteEv = [] := List.length_eq_zero.mp h
  rw [hnil] at hmem
  simp at hmem

theorem oaProcessLine_lineStep (p : String → Option String) : LineStep (oaProcessLine p) := by
  intro st line
  constructor
  · intro h; simp [oaProcessLine, h]
  · intro h
    simp only [oaProcessLine, h, Bool.false_eq_true, if_false]
    rcases hd : dropLit "data: ".data line with _ | data
    · exact Or.inl rfl
    · by_cases hdone : data = "[DONE]".data
      · simp only [hdone, if_pos rfl]
        exact Or.inr (Or.inr rfl)
      · simp only [if_neg hdone]
        rcases hp : p (String.mk data) with _ | delta
        · exact Or.inl rfl
        · by_cases hne : delta = ""
          · simp [hne]
          · simp only [ne_eq, hne, not_false_eq_true, if_pos]
            exact Or.inr (Or.inl ⟨delta, rfl⟩)

theorem claudeProcessLine_lineStep (p : String → Option ClaudeFrame) :
    LineStep (claudeProcessLine p) := by
  intro st line
  constructor
  · intro h; simp [claudeProcessLine, h]
  · intro h
    simp only [claudeProcessLine, h, Bool.false_eq_true, if_false]
    rcases hd : dropLit "data: ".data line with _ | data
    · exact Or.inl rfl
    · by_cases hdone : data = "[DONE]".data
      · simp only [hdone, if_pos rfl]
        exact Or.inr (Or.inr rfl)
      · simp only [if_neg hdone]
        rcases hp : p (String.mk data) with _ | fr
        · exact Or.inl rfl
        · rcases fr with t | _ | _
          · rcases t with _ | t
            · exact Or.inl rfl
            · by_cases hne : t = ""
              · simp [hne]
              · simp only [ne_eq, hne, not_false_eq_true, if_pos]
                exact Or.inr (Or.inl ⟨t, rfl⟩)
          · exact Or.inr (Or.inr rfl)
          · exact Or.inl rfl

theorem streamInv_step {procLine} (hp : LineStep procLine) {st : StreamState}
    (h : StreamInv st) (line : List Char) : StreamInv (procLine st line) := by
  by_cases hh : st.halted = true
  · rw [(hp st line).1 hh]; exact h
  · have hh' : st.halted = false := by simpa using hh
    obtain ⟨h1, h2, h3, h4⟩ := h
    have hz : completeCount st.events = 0 := h3 hh'
    rcases (hp st line).2 hh' with heq | ⟨d, heq⟩ | heq <;> rw [heq]
    · exact ⟨h1, h2, h3, h4⟩
    · refine ⟨?_, ?_, ?_, ?_⟩
      · simp [chunksConcat_append, chunksConcat, h1, String.append_assoc]
      · simpa [completeCount_append, completeCount, isCompleteEv] using h2
      · intro _; simpa [completeCount_append, completeCount, isCompleteEv] using hz
      · intro f hf
        rcases List.mem_append.mp hf with hf | hf
        · exact absurd hf (fun hm => completeCount_zero_not_mem hz hm)
        · simp at hf
    · refine ⟨?_, ?_, ?_, ?_⟩
      · simp [chunksConcat_append, chunksConcat, h1]
      · show completeCount (st.events ++ [StreamEvent.complete st.fullResponse]) ≤ 1
        rw [completeCount_append, hz]
        simp [completeCount, isCompleteEv]
      · intro hc; simp at hc
      · intro f hf
        rcases List.mem_append.mp hf with hf | hf
        · exact absurd hf (fun hm => completeCount_zero_not_mem hz hm)
        · simpa using hf

theorem streamInv_foldl {procLine} (hp : LineStep procLine) :
    ∀ (lines : List (List Char)) (st : StreamState),
      StreamInv st → StreamInv (lines.foldl procLine st) := by
  intro lines
  induction lines with
  | nil => intro st h; exact h
  | cons l ls ih => intro st h; exact ih _ (streamInv_step hp h l)

theorem streamInv_buffer {st : StreamState} (h : StreamInv st) (b : List Char) :
    StreamInv { st with buffer := b } := h

theorem streamInv_processRead {procLine} (hp : LineStep procLine) {st : StreamState}
    (h : StreamInv st) (input : String) : StreamInv (processRead procLine st input) := by
  unfold processRead
  by_cases hh : st.halted = true
  · rw [if_pos hh]; exact h
  · rw [if_neg hh]
    exact streamInv_foldl hp _ _ (streamInv_buffer h _)

theorem streamInv_initStream : StreamInv initStream := by
  refine ⟨rfl, by simp [initStream, completeCount], fun _ => by simp [initStream, completeCount], ?_⟩
  intro f hf; simp [initStream] at hf

theorem streamInv_runStream {procLine} (hp : LineStep procLine) (reads : List String) :
    StreamInv (runStream procLine reads) := by
  unfold runStream
  have : ∀ (rs : List String) (st : StreamState), StreamInv st →
      StreamInv (rs.foldl (processRead procLine) st) := by
    intro rs
    induction rs with
    | nil => intro st h; exact h
    | cons r rest ih => intro st h; exact ih _ (streamInv_processRead hp h r)
  exact this reads initStream streamInv_initStream

/- ## Usage tracker lemmas -/

theorem trackMaps_successfulRequests (u : Usage) (e : UsageEvent) :
    (trackMaps u e).successfulRequests = u.successfulRequests := by
  unfold trackMaps
  repeat' split
  all_goals rfl

theorem trackMaps_totalResponseTime (u : Usage) (e : UsageEvent) :
    (trackMaps u e).totalResponseTime = u.totalResponseTime := by
  unfold trackMaps
  repeat' split
  all_goals rfl

theorem trackMaps_averageResponseTime (u : Usage) (e : UsageEvent) :
    (trackMaps u e).averageResponseTime = u.averageResponseTime := by
  unfold trackMaps
  repeat' split
  all_goals rfl

theorem trackMaps_history (u : Usage) (e : UsageEvent) :
    (trackMaps u e).history = u.history := by
  unfold trackMaps
  repeat' split
  all_goals rfl

theorem trackTotals_history (u : Usage) (e : UsageEvent) :
    (trackTotals u e).history = u.history := by
  unfold trackTotals
  repeat' split
  all_goals rfl

theorem trackCounters_history (u : Usage) (e : UsageEvent) :
    (trackCounters u e).history = u.history := by
  rw [trackCounters, trackMaps_history, trackTotals_history]

theorem trackTotals_fail (u : Usage) (e : UsageEvent) (h : e.success = false) :
    trackTotals u e =
      { u with totalRequests := u.totalRequests + 1
               failedRequests := u.failedRequests + 1 } := by
  unfold trackTotals
  simp [h]

theorem trackTotals_success_rt (u : Usage) (e : UsageEvent) (t : ℚ)
    (hs : e.success = true) (hrt : e.responseTime = some t) (hnz : t ≠ 0) :
    trackTotals u e =
      { u with totalRequests := u.totalRequests + 1
               successfulRequests := u.successfulRequests + 1
               totalResponseTime := u.totalResponseTime + t
               averageResponseTime :=
                 (u.totalResponseTime + t) / ((u.successfulRequests + 1 : Nat) : ℚ) } := by
  unfold trackTotals
  simp [hs, hrt, hnz]

theorem trackTotals_success_nort (u : Usage) (e : UsageEvent)
    (hs : e.success = true) (hf : rtTruthy e = false) :
    trackTotals u e =
      { u with totalRequests := u.totalRequests + 1
               successfulRequests := u.successfulRequests + 1 } := by
  unfold trackTotals
  rcases hrt : e.responseTime with _ | t
  · simp [hs, hrt]
  · have hz : t = 0 := by
      have h := hf
      unfold rtTruthy at h
      rw [hrt] at h
      simpa using h
    simp [hs, hrt, hz]

theorem trackTotals_success_succCount (u : Usage) (e : UsageEvent) (hs : e.success = true) :
    (trackTotals u e).successfulRequests = u.successfulRequests + 1 := by
  unfold trackTotals
  simp only [hs, if_true]
  repeat' split
  all_goals rfl

theorem trackUsage_successfulRequests (now : Nat) (u : Usage) (e : UsageEvent) :
    (trackUsage now u e).successfulRequests = (trackCounters u e).successfulRequests := by
  simp only [trackUsage]
  split
  · rfl
  · rfl

theorem trackUsage_totalResponseTime (now : Nat) (u : Usage) (e : UsageEvent) :
    (trackUsage now u e).totalResponseTime = (trackCounters u e).totalResponseTime := by
  simp only [trackUsage]
  split
  · rfl
  · rfl

theorem trackUsage_averageResponseTime (now : Nat) (u : Usage) (e : UsageEvent) :
    (trackUsage now u e).averageResponseTime = (trackCounters u e).averageResponseTime := by
  simp only [trackUsage]
  split
  · rfl
  · rfl

theorem trackUsage_history_step (now : Nat) (u : Usage) (e : UsageEvent)
    (h100 : u.history.length ≤ 100) :
    (trackUsage now u e).history =
      (u.history ++ [HistEntry.mk now e]).drop (u.history.length + 1 - 100) := by
  simp only [trackUsage, trackCounters_history]
  split
  · next hc =>
    have hlen : u.history.length = 100 := by
      rw [List.length_append] at hc
      simp at hc
      omega
    have hidx : u.history.length + 1 - 100 = 1 := by omega
    rw [hidx, List.drop_one]
  · next hc =>
    have hidx : u.history.length + 1 - 100 = 0 := by
      rw [List.length_append] at hc
      simp at hc
      omega
    rw [hidx, List.drop_zero]

theorem recordEvents_go_history :
    ∀ (es : List (Nat × UsageEvent)) (u : Usage), u.history.length ≤ 100 →
      (es.foldl (fun u p => trackUsage p.1 u p.2) u).history =
        (u.history ++ es.map (fun p => HistEntry.mk p.1 p.2)).drop
          (u.history.length + es.length - 100) := by
  intro es
  induction es with
  | nil =>
    intro u h
    simp only [List.foldl_nil, List.map_nil, List.append_nil, List.length_nil, Nat.add_zero]
    have hidx : u.history.length - 100 = 0 := by omega
    rw [hidx, List.drop_zero]
  | cons p rest ih =>
    intro u h
    simp only [List.foldl_cons, List.map_cons, List.length_cons]
    have hstep := trackUsage_history_step p.1 u p.2 h
    have hlen : (trackUsage p.1 u p.2).history.length ≤ 100 := by
      rw [hstep, List.length_drop, List.length_append]
      simp
      omega
    rw [ih (trackUsage p.1 u p.2) hlen, hstep]
    have hk : u.history.length + 1 - 100 ≤ (u.history ++ [HistEntry.mk p.1 p.2]).length := by
      rw [List.length_append]
      simp
      omega
    rw [← List.drop_append_of_le_length hk, List.drop_drop]
    rw [List.append_assoc, List.singleton_append]
    congr 1
    rw [List.length_drop, List.length_append]
    simp
    omega

theorem recordEvents_history (es : List (Nat × UsageEvent)) :
    (recordEvents es).history =
      (es.map (fun p => HistEntry.mk p.1 p.2)).drop (es.length - 100) := by
  have h := recordEvents_go_history es initUsage (by simp [initUsage])
  simpa [recordEvents, initUsage] using h

/- ## Claim theorems -/

/-- C1: for every streaming invocation of a provider adapter (OpenAI or
Claude) — any parse behavior, any sequence of reads — the concatenation of
all `streamChunk` fragments equals the final assembled `fullResponse`
exactly, at most one terminal completion signal is emitted, and any
emitted completion carries exactly that assembled text. -/
theorem C1_stream_reassembly :
    (∀ (parseDelta : String → Option String) (reads : List String),
      chunksConcat (callOpenAIStream parseDelta reads).events =
        (callOpenAIStream parseDelta reads).fullResponse ∧
      completeCount (callOpenAIStream parseDelta reads).events ≤ 1 ∧
      ∀ f, StreamEvent.complete f ∈ (callOpenAIStream parseDelta reads).events →
        f = (callOpenAIStream parseDelta reads).fullResponse) ∧
    (∀ (parseFrame : String → Option ClaudeFrame) (reads : List String),
      chunksConcat (callClaudeStream parseFrame reads).events =
        (callClaudeStream parseFrame reads).fullResponse ∧
      completeCount (callClaudeStream parseFrame reads).events ≤ 1 ∧
      ∀ f, StreamEvent.complete f ∈ (callClaudeStream parseFrame reads).events →
        f = (callClaudeStream parseFrame reads).fullResponse) := by
  constructor
  · intro p reads
    obtain ⟨h1, h2, _, h4⟩ := streamInv_runStream (oaProcessLine_lineStep p) reads
    exact ⟨h1, h2, h4⟩
  · intro p reads
    obtain ⟨h1, h2, _, h4⟩ := streamInv_runStream (claudeProcessLine_lineStep p) reads
    exact ⟨h1, h2, h4⟩

/-- C1 witness: a concrete two-fragment OpenAI stream assembles to "ab"
and its completion signal carries exactly that text. -/
theorem C1_stream_reassembly_witness :
    ("ab" : String) =
      (callOpenAIStream (fun s => some s) ["data: a\nda", "ta: b\n", "data: [DONE]\n"]).fullResponse :=
  (C1_stream_reassembly.1 (fun s => some s) ["data: a\nda", "ta: b\n", "data: [DONE]\n"]).2.2
    "ab" (by decide)

/-- C2 counterexample: a descriptor with both isMath and isCode set and an
answer longer than 100 characters containing "Final Answer" yields
confidence 85, not 90 — the isCode rule overwrites the isMath rule because
the source uses sequential ifs, not an else-if cascade. -/
theorem C2_counterexample :
    ctMathCode.isMath = true ∧ mathAnswerPattern ansMathCode = true ∧
    ctMathCode.isCode = true ∧ 100 < ansMathCode.length ∧
    calculateConfidence ansMathCode ctMathCode = 85 := by
  refine ⟨rfl, by decide, rfl, by decide, by decide⟩

/-- C2 (amended): the isMath final-answer rule yields 90 provided no later
rule of the sequence overwrites it, i.e. the descriptor is not also isCode
with an answer longer than 100 characters and not isLongText with an
answer shorter than 50 characters. -/
theorem C2_math_rule_amended (response : String) (ct : ContentTypeDescriptor)
    (hm : ct.isMath = true) (hp : mathAnswerPattern response = true)
    (hc : ¬(ct.isCode = true ∧ response.length > 100))
    (hl : ¬(ct.isLongText = true ∧ response.length < 50)) :
    calculateConfidence response ct = 90 := by
  simp only [calculateConfidence]
  rw [if_neg hl, if_neg hc, if_pos ⟨hm, hp⟩]
  decide

/-- C2 witness: a pure math descriptor with a "Final Answer" text gets 90. -/
theorem C2_math_rule_witness :
    calculateConfidence "Final Answer: 4"
      { wordCount := 4, isMath := true, isCode := false, isQuestion := false
        isFillBlank := false, isCommand := false, isStatement := false, isLongText := false } = 90 :=
  C2_math_rule_amended _ _ rfl (by decide) (by decide) (by decide)

/-- C3 counterexample: the empty string does not yield a descriptor with
all boolean flags false — its isStatement flag is true (no other test
fires and the derived word count 1 is ≤ 20). -/
theorem C3_counterexample : (analyzeContentType "").isStatement = true := by decide

/-- C3 (amended): `classify` is a deterministic, total function, and the
empty string yields the descriptor with derived word count 1 and all
boolean flags false except isStatement, which is true. -/
theorem C3_classify_total_amended :
    (∀ s t : String, s = t → analyzeContentType s = analyzeContentType t) ∧
    analyzeContentType "" =
      { wordCount := 1, isMath := false, isCode := false, isQuestion := false
        isFillBlank := false, isCommand := false, isStatement := true, isLongText := false } :=
  ⟨fun _ _ h => by rw [h], by decide⟩

/-- C3 witness: determinism at a concrete input, and the empty-string
descriptor evaluated. -/
theorem C3_classify_total_witness :
    analyzeContentType "2 + 2" = analyzeContentType "2 + 2" ∧
    (analyzeContentType "").isStatement = true :=
  ⟨C3_classify_total_amended.1 "2 + 2" "2 + 2" rfl, by rw [C3_classify_total_amended.2]⟩

/-- C4: for every text whose descriptor has both isMath and isCode true
and no image present, `buildPrompt` selects the math branch (restate,
step-by-step work, Final Answer, math user-prompt framing), not the code
branch. -/
theorem C4_math_over_code (text : String) (ct : ContentTypeDescriptor)
    (hm : ct.isMath = true) (_hc : ct.isCode = true) :
    buildPrompt text ct false =
      { systemPrompt := basePrompt ++ "You are solving a mathematical problem. Restate the problem clearly, solve it step-by-step showing all work, and provide a Final Answer at the end. "
        userPrompt := "Solve this math problem step-by-step:\n\n" ++ text } := by
  simp only [buildPrompt, hm]
  rfl

/-- C4 witness: a concrete text classified as both math and code gets the
math prompt. -/
theorem C4_math_over_code_witness :
    (analyzeContentType "solve: let y = 2;").isMath = true ∧
    (analyzeContentType "solve: let y = 2;").isCode = true ∧
    buildPrompt "solve: let y = 2;" (analyzeContentType "solve: let y = 2;") false =
      { systemPrompt := basePrompt ++ "You are solving a mathematical problem. Restate the problem clearly, solve it step-by-step showing all work, and provide a Final Answer at the end. "
        userPrompt := "Solve this math problem step-by-step:\n\n" ++ "solve: let y = 2;" } :=
  ⟨by decide, by decide, C4_math_over_code "solve: let y = 2;" _ (by decide) (by decide)⟩

/-- C5 counterexample: a successful event with latency 0 ms (falsy in JS)
increments successfulRequests without recomputing the average, so after
[success 100ms, success 0ms] the stored average (100) differs from
totalResponseTime / successfulRequests (50). -/
theorem C5_counterexample :
    (recordEvents [(0, successEvent 100), (1, successEvent 0)]).averageResponseTime ≠
      (recordEvents [(0, successEvent 100), (1, successEvent 0)]).totalResponseTime /
        ((recordEvents [(0, successEvent 100), (1, successEvent 0)]).successfulRequests : ℚ) := by
  norm_num [recordEvents, trackUsage, trackCounters, trackTotals, trackMaps, initUsage, successEvent]

/-- C5 (amended): provided every successful event carries a truthy
(non-zero) latency, each recorded event preserves
averageResponseTime = totalResponseTime / successfulRequests; the
recomputed division always has a positive success count; a failed event
leaves the average unchanged; and after two successful events with
latencies 100 and 300 the average is exactly 200. -/
theorem C5_average_amended :
    (∀ (now : Nat) (u : Usage) (e : UsageEvent),
      AvgInv u → (e.success = true → rtTruthy e = true) → AvgInv (trackUsage now u e)) ∧
    (∀ (now : Nat) (u : Usage) (e : UsageEvent), e.success = false →
      (trackUsage now u e).averageResponseTime = u.averageResponseTime) ∧
    (∀ (now : Nat) (u : Usage) (e : UsageEvent), e.success = true →
      0 < (trackUsage now u e).successfulRequests) ∧
    (recordEvents [(0, successEvent 100), (1, successEvent 300)]).averageResponseTime = 200 := by
  refine ⟨?_, ?_, ?_, ?_⟩
  · intro now u e hinv hrt
    unfold AvgInv
    rw [trackUsage_averageResponseTime, trackUsage_totalResponseTime,
      trackUsage_successfulRequests, trackCounters,
      trackMaps_averageResponseTime, trackMaps_totalResponseTime, trackMaps_successfulRequests]
    rcases hs : e.success with _ | _
    · rw [trackTotals_fail u e hs]
      exact hinv
    · have htr := hrt hs
      unfold rtTruthy at htr
      rcases hrtv : e.responseTime with _ | t
      · rw [hrtv] at htr
        simp at htr
      · rw [hrtv] at htr
        have hnz : t ≠ 0 := by simpa using htr
        rw [trackTotals_success_rt u e t hs hrtv hnz]
  · intro now u e hs
    rw [trackUsage_averageResponseTime, trackCounters, trackMaps_averageResponseTime,
      trackTotals_fail u e hs]
  · intro now u e hs
    rw [trackUsage_successfulRequests, trackCounters, trackMaps_successfulRequests,
      trackTotals_success_succCount u e hs]
    exact Nat.succ_pos _
  · norm_num [recordEvents, trackUsage, trackCounters, trackTotals, trackMaps, initUsage,
      successEvent]

/-- C5 witness: the invariant holds after one successful 100 ms event on
the fresh store, and the concrete 100/300 sequence averages to 200. -/
theorem C5_average_witness :
    AvgInv (trackUsage 0 initUsage (successEvent 100)) ∧
    (recordEvents [(0, successEvent 100), (1, successEvent 300)]).averageResponseTime = 200 :=
  ⟨C5_average_amended.1 0 initUsage (successEvent 100)
      (by norm_num [AvgInv, initUsage])
      (fun _ => by norm_num [rtTruthy, successEvent]),
    C5_average_amended.2.2.2⟩

/-- C6: after any sequence of recorded events the usage history log never
exceeds 100 entries, and eviction is oldest-first: after exactly 150
recorded events the history has length exactly 100 and consists of the
entries of the 100 newest events (the 50 oldest are absent). -/
theorem C6_history_capacity (es : List (Nat × UsageEvent)) :
    (recordEvents es).history.length ≤ 100 ∧
    (es.length = 150 →
      (recordEvents es).history = (es.map (fun p => HistEntry.mk p.1 p.2)).drop 50 ∧
      (recordEvents es).history.length = 100) := by
  constructor
  · rw [recordEvents_history, List.length_drop, List.length_map]
    omega
  · intro h
    constructor
    · rw [recordEvents_history, h]
    · rw [recordEvents_history, List.length_drop, List.length_map, h]

/-- C6 witness: 150 concrete events leave exactly the 100 newest history
entries. -/
theorem C6_history_capacity_witness :
    (recordEvents demoEvents).history.length ≤ 100 ∧
    (recordEvents demoEvents).history =
      (demoEvents.map (fun p => HistEntry.mk p.1 p.2)).drop 50 :=
  ⟨(C6_history_capacity demoEvents).1,
    ((C6_history_capacity demoEvents).2 (by simp [demoEvents])).1⟩

/-- C7: for every descriptor and every answer text, including the empty
string, the confidence returned by `calculateConfidence` lies in the
closed range [50, 95]. -/
theorem C7_confidence_bounds (response : String) (ct : ContentTypeDescriptor) :
    50 ≤ calculateConfidence response ct ∧ calculateConfidence response ct ≤ 95 := by
  unfold calculateConfidence
  exact ⟨Nat.le_max_left _ _, Nat.max_le.mpr ⟨by norm_num, Nat.min_le_left _ _⟩⟩

/-- C8 counterexample: on a non-success response whose body cannot be
parsed, the non-streaming adapter does not fall back to the generic
provider message — `response.json()` itself rejects (no `.catch`), so a
JSON SyntaxError propagates instead. -/
theorem C8_counterexample :
    checkResponse "OpenAI API error" false none = some ThrownError.jsonSyntaxError ∧
    checkResponse "OpenAI API error" false none ≠
      some (ThrownError.providerMsg "OpenAI API error") :=
  ⟨by decide, by decide⟩

/-- C8 (amended): for every non-success HTTP response both adapters fail;
when the error body parses, both surface the provider's reported message
(or the generic message when that field is absent or empty); when the
body cannot be parsed, only the streaming adapters fall back to the
generic provider message, while the non-streaming adapters propagate the
JSON parse failure. -/
theorem C8_provider_error_amended (generic : String) (ok : Bool)
    (body : Option (Option String)) (hok : ok = false) :
    ((checkResponse generic ok body).isSome ∧ (checkResponseStream generic ok body).isSome) ∧
    (∀ m, body = some m →
      checkResponse generic ok body = some (ThrownError.providerMsg (messageOrGeneric generic m)) ∧
      checkResponseStream generic ok body =
        some (ThrownError.providerMsg (messageOrGeneric generic m))) ∧
    (body = none →
      checkResponseStream generic ok body = some (ThrownError.providerMsg generic) ∧
      checkResponse generic ok body = some ThrownError.jsonSyntaxError) := by
  subst hok
  refine ⟨?_, ?_, ?_⟩
  · rcases body with _ | m
    · exact ⟨by simp [checkResponse], by simp [checkResponseStream]⟩
    · exact ⟨by simp [checkResponse], by simp [checkResponseStream]⟩
  · intro m hm
    subst hm
    exact ⟨by simp [checkResponse], by simp [checkResponseStream]⟩
  · intro hb
    subst hb
    refine ⟨?_, by simp [checkResponse]⟩
    simp [checkResponseStream, messageOrGeneric]

/-- C8 witness: a non-success response with unparseable body, evaluated on
both adapters. -/
theorem C8_provider_error_witness :
    checkResponseStream "OpenAI API error" false none =
      some (ThrownError.providerMsg "OpenAI API error") ∧
    checkResponse "OpenAI API error" false none = some ThrownError.jsonSyntaxError :=
  (C8_provider_error_amended "OpenAI API error" false none rfl).2.2 rfl

/-- C9: a follow-up submitted when no active non-empty thread exists, or
whose text exceeds the 50-word limit, never reaches the dispatch of a
provider request — `sendFollowUp` returns an alert (or nothing) instead. -/
theorem C9_followup_guard (inputValue : String) (thread : Option Thread)
    (h : noActiveThread thread = true ∨
      50 < (followUpWords (jsTrimString inputValue)).length) :
    ∀ t, sendFollowUp inputValue thread ≠ FollowUpAction.dispatch t := by
  intro t
  simp only [sendFollowUp]
  split
  · simp
  · split
    · simp
    · split
      · simp
      · next hw hth =>
        rcases h with h | h
        · exact absurd h hth
        · exact absurd h hw

/-- C9 witness: a follow-up with no thread at all is not dispatched. -/
theorem C9_followup_guard_witness :
    sendFollowUp "hello" none ≠ FollowUpAction.dispatch "hello" :=
  C9_followup_guard "hello" none (Or.inl (by decide)) "hello"

/-- C10: for every follow-up request, classification is bypassed: the
substituted descriptor has isQuestion true and every other flag false
regardless of the text, so `buildPrompt` (follow-ups carry no image:
`sendAnalysisRequest(text, null, true)`) always takes the question branch
and `getTemperature` always yields 0.2. -/
theorem C10_followup_descriptor (text : String) :
    (followUpContentType text).isQuestion = true ∧
    (followUpContentType text).isMath = false ∧
    (followUpContentType text).isCode = false ∧
    (followUpContentType text).isFillBlank = false ∧
    (followUpContentType text).isCommand = false ∧
    (followUpContentType text).isStatement = false ∧
    (followUpContentType text).isLongText = false ∧
    buildPrompt text (followUpContentType text) false =
      { systemPrompt := basePrompt ++ "Provide a brief, accurate answer to this question. Include a Final Answer field. "
        userPrompt := "Answer this question:\n\n" ++ text } ∧
    getTemperature (followUpContentType text) = 2 / 10 :=
  ⟨rfl, rfl, rfl, rfl, rfl, rfl, rfl, rfl, rfl⟩

end ProblemSolver
